import Mathlib

/-!
Verification of the exoplanet dashboard page (`src/pages/01_외계행성.py`).

The page is a linear script over three pure pieces:
  * `simulate_transit` — the transit light-curve model (numpy over floats;
    modelled here over `ℚ`, treating the decimal literals `0.1`, `0.4`
    exactly);
  * the catalog filter on `system_data` (pandas `str.contains` with
    `na=False, case=False`; modelled as a case-insensitive substring
    filter over `List Row`);
  * the orbit-map figure `fig_map` (plotly traces; modelled as a list of
    `Trace` records, with the trigonometric orbit projection over `ℝ`).

`load_data` wraps `pd.read_csv` in `try/except FileNotFoundError`; we model
the read outcome explicitly and the handler as an `Except`-valued function.
-/

/-- `np.linspace a b n`: `n` evenly spaced samples from `a` to `b`
inclusive, sample `i` being `a + (b - a) * i / (n - 1)`. -/
def linspace {α : Type} [Field α] (a b : α) (n : ℕ) : List α :=
  (List.range n).map (fun i : ℕ => a + (b - a) * (i : α) / ((n : α) - 1))

/-- `simulate_transit` from the source: 100 time samples over
`[0, orbital_period]`; brightness starts as a constant
`star_brightness` array and the samples inside the transit window
`[orbital_period * 0.4, orbital_period * 0.4 + orbital_period * 0.1]`
are multiplied by `1 - (planet_radius / 10) ^ 2`.  The numpy masked
in-place multiply on a constant array is the pointwise map below. -/
def simulate_transit (planet_radius orbital_period star_brightness : ℚ) :
    List ℚ × List ℚ :=
  let time := linspace 0 orbital_period 100
  let transit_duration := orbital_period * 0.1
  let transit_start := orbital_period * 0.4
  let transit_end := transit_start + transit_duration
  let brightness := time.map (fun t =>
    if transit_start ≤ t ∧ t ≤ transit_end then
      star_brightness * (1 - (planet_radius / 10) ^ 2)
    else star_brightness)
  (time, brightness)

/-- One row of the exoplanet catalog CSV.  Every column may hold a missing
value (`pd.isna`), hence the `Option` fields. -/
structure Row where
  pl_name : Option String
  pl_orbper : Option ℚ
  pl_orbsmax : Option ℚ
  pl_rade : Option ℚ
  st_spectype : Option String
deriving DecidableEq

/-- Lower-cased character list of a string (for case-insensitive match). -/
def lowerChars (s : String) : List Char := s.data.map Char.toLower

/-- `leadBlock l p` holds when `p` is a leading block of `l`. -/
def leadBlock : List Char → List Char → Bool
  | _, [] => true
  | [], _ :: _ => false
  | c :: cs, d :: ds => c == d && leadBlock cs ds

/-- `containsSub l p` holds when `p` occurs contiguously inside `l`. -/
def containsSub : List Char → List Char → Bool
  | [], p => leadBlock [] p
  | c :: t, p => leadBlock (c :: t) p || containsSub t p

/-- pandas `Series.str.contains(sub, case=False)` on a present value, for
the literal (regex-metacharacter-free) system names used by the page:
case-insensitive substring test. -/
def strContainsCI (s sub : String) : Bool :=
  containsSub (lowerChars s) (lowerChars sub)

/-- The row predicate of line 46:
`df["pl_name"].str.contains(selected_system, na=False, case=False)` —
a missing `pl_name` yields `False` (`na=False`). -/
def rowMatches (selected_system : String) (row : Row) : Bool :=
  match row.pl_name with
  | some n => strContainsCI n selected_system
  | none => false

/-- Lines 44–50: the catalog filter producing `system_data`.  An empty
catalog gives an empty table; otherwise a selector other than `"All"`
keeps the rows matched by `rowMatches`, and `"All"` keeps the whole
table. -/
def system_data (df : List Row) (selected_system : String) : List Row :=
  if df.isEmpty then []
  else if selected_system ≠ "All" then df.filter (rowMatches selected_system)
  else df

/-- Trace mode of the plotly `go.Scatter` calls used by the page. -/
inductive Mode
  | markers
  | lines

/-- One plotly trace of the orbit-map figure: its data arrays, mode,
marker size (when given) and legend name (the raw, possibly missing,
`pl_name` value). -/
structure Trace where
  x : List ℝ
  y : List ℝ
  mode : Mode
  markerSize : Option ℝ
  name : Option String

/-- `np.linspace(0, 2 * np.pi, 100)` — the angle samples computed in both
branches of the orbit map. -/
noncomputable def orbitAngle : List ℝ := linspace 0 (2 * Real.pi) 100

/-- `x = radius * np.cos(angle)` of the orbit projection. -/
noncomputable def orbitX (radius : ℚ) : List ℝ :=
  orbitAngle.map (fun θ => (radius : ℝ) * Real.cos θ)

/-- `y = radius * np.sin(angle)` of the orbit projection. -/
noncomputable def orbitY (radius : ℚ) : List ℝ :=
  orbitAngle.map (fun θ => (radius : ℝ) * Real.sin θ)

/-- Line 61: `row["pl_orbsmax"] if not pd.isna(row["pl_orbsmax"]) else
orbital_radius` — catalog semi-major axis when present, else the
UI-supplied orbital radius. -/
def rowRadius (orbital_radius : ℚ) (row : Row) : ℚ :=
  match row.pl_orbsmax with
  | some v => v
  | none => orbital_radius

/-- Lines 55–80: the traces of the orbit-map figure, in insertion order:
the star marker first, then — when the filtered table is non-empty — an
orbit line and a planet marker per row, and otherwise one demo orbit line
and one demo marker built from the UI-supplied radii. -/
noncomputable def fig_map (system_data : List Row)
    (orbital_radius planet_radius : ℚ) : List Trace :=
  ⟨[0], [0], Mode.markers, some 20, some "항성"⟩ ::
    (if system_data.isEmpty then
      [⟨orbitX orbital_radius, orbitY orbital_radius, Mode.lines, none,
          some "샘플 행성"⟩,
        ⟨[(orbital_radius : ℝ)], [(0 : ℝ)], Mode.markers,
          some ((planet_radius : ℝ) * 5), some "샘플 행성"⟩]
    else
      system_data.flatMap (fun row =>
        [⟨orbitX (rowRadius orbital_radius row),
            orbitY (rowRadius orbital_radius row), Mode.lines, none,
            row.pl_name⟩,
          ⟨[((rowRadius orbital_radius row : ℚ) : ℝ)], [(0 : ℝ)],
            Mode.markers, some ((planet_radius : ℝ) * 5),
            row.pl_name.map (fun n => n ++ " (조정됨)")⟩]))

/-- The outcome of `pd.read_csv("data/exoplanets.csv")`: either the parsed
table, or a Python exception — `FileNotFoundError` when the file is
absent, `PermissionError` when it is present but unreadable. -/
inductive PdError
  | fileNotFound
  | permissionError
deriving DecidableEq

/-- Input to `load_data`: what the underlying file read produces. -/
inductive ReadResult
  | ok (df : List Row)
  | err (e : PdError)

/-- Lines 11–18: `load_data` wraps the read in
`try: ... except FileNotFoundError:` — that one exception is caught (a
warning is shown and an empty table returned); any other exception
escapes the handler. -/
def load_data : ReadResult → Except PdError (List Row)
  | ReadResult.ok df => Except.ok df
  | ReadResult.err PdError.fileNotFound => Except.ok []
  | ReadResult.err PdError.permissionError =>
      Except.error PdError.permissionError

theorem linspace_length {α : Type} [Field α] (a b : α) (n : ℕ) :
    (linspace a b n).length = n := by
  rw [linspace, List.length_map, List.length_range]

theorem getD_map_of_lt {α β : Type} (f : α → β) (l : List α) (i : ℕ)
    (d : β) (d0 : α) (h : i < l.length) :
    (l.map f).getD i d = f (l.getD i d0) := by
  rw [List.getD_eq_getElem?_getD, List.getD_eq_getElem?_getD,
    List.getElem?_map, List.getElem?_eq_getElem h]
  simp

theorem linspace_getD {α : Type} [Field α] (a b : α) (n i : ℕ) (d : α)
    (h : i < n) :
    (linspace a b n).getD i d = a + (b - a) * (i : α) / ((n : α) - 1) := by
  rw [linspace, List.getD_eq_getElem?_getD, List.getElem?_map,
    List.getElem?_range h]
  rfl

theorem simulate_transit_time (r P B : ℚ) :
    (simulate_transit r P B).1 = linspace 0 P 100 := rfl

theorem simulate_transit_brightness (r P B : ℚ) :
    (simulate_transit r P B).2 = (linspace 0 P 100).map (fun t =>
      if P * 0.4 ≤ t ∧ t ≤ P * 0.4 + P * 0.1 then
        B * (1 - (r / 10) ^ 2)
      else B) := rfl

theorem brightness_getD (r P B : ℚ) (i : ℕ) (hi : i < 100) :
    ((simulate_transit r P B).2).getD i 0 =
      if P * 0.4 ≤ ((simulate_transit r P B).1).getD i 0 ∧
          ((simulate_transit r P B).1).getD i 0 ≤ P * 0.4 + P * 0.1 then
        B * (1 - (r / 10) ^ 2)
      else B := by
  rw [simulate_transit_brightness,
    getD_map_of_lt _ _ _ _ 0 (by rw [linspace_length]; exact hi)]
  rfl

/-- **C1** — For every `planet_radius > 0`, `orbital_period > 0`,
`star_brightness > 0` and every sample index `i < 100`: if the `i`-th time
sample lies inside the closed transit window
`[orbital_period * 0.4, orbital_period * 0.4 + orbital_period * 0.1]` the
`i`-th brightness sample equals
`star_brightness * (1 - (planet_radius / 10) ^ 2)`, and otherwise it equals
`star_brightness` exactly. -/
theorem c1_brightness_window (r P B : ℚ) (hr : 0 < r) (hP : 0 < P)
    (hB : 0 < B) (i : ℕ) (hi : i < 100) :
    (P * 0.4 ≤ ((simulate_transit r P B).1).getD i 0 ∧
        ((simulate_transit r P B).1).getD i 0 ≤ P * 0.4 + P * 0.1 →
      ((simulate_transit r P B).2).getD i 0 = B * (1 - (r / 10) ^ 2)) ∧
    (¬(P * 0.4 ≤ ((simulate_transit r P B).1).getD i 0 ∧
        ((simulate_transit r P B).1).getD i 0 ≤ P * 0.4 + P * 0.1) →
      ((simulate_transit r P B).2).getD i 0 = B) := by
  rw [brightness_getD r P B i hi]
  constructor
  · intro h
    rw [if_pos h]
  · intro h
    rw [if_neg h]

theorem c1_brightness_window_witness :
    (0 : ℚ) < 2 ∧ (0 : ℚ) < 10 ∧ (0 : ℚ) < 1 ∧ 45 < 100 ∧
    (((10 : ℚ) * 0.4 ≤ ((simulate_transit 2 10 1).1).getD 45 0 ∧
        ((simulate_transit 2 10 1).1).getD 45 0 ≤ 10 * 0.4 + 10 * 0.1 →
      ((simulate_transit 2 10 1).2).getD 45 0 = 1 * (1 - (2 / 10) ^ 2)) ∧
    (¬((10 : ℚ) * 0.4 ≤ ((simulate_transit 2 10 1).1).getD 45 0 ∧
        ((simulate_transit 2 10 1).1).getD 45 0 ≤ 10 * 0.4 + 10 * 0.1) →
      ((simulate_transit 2 10 1).2).getD 45 0 = 1)) :=
  ⟨by norm_num, by norm_num, by norm_num, by norm_num,
    c1_brightness_window 2 10 1 (by norm_num) (by norm_num) (by norm_num)
      45 (by norm_num)⟩

/-- **C4** — For `planet_radius = 2.0`, `orbital_period = 10.0`,
`star_brightness = 1.0` the transit window is `[4, 5]`; every sample whose
time lies in that closed interval has brightness `0.96` and every other
sample has brightness `1`. -/
theorem c4_concrete_scenario :
    ((10 : ℚ) * 0.4 = 4 ∧ (10 : ℚ) * 0.4 + 10 * 0.1 = 5) ∧
    ∀ i : Fin 100,
      ((4 ≤ ((simulate_transit 2 10 1).1).getD (i : ℕ) 0 ∧
          ((simulate_transit 2 10 1).1).getD (i : ℕ) 0 ≤ 5) →
        ((simulate_transit 2 10 1).2).getD (i : ℕ) 0 = 0.96) ∧
      (¬(4 ≤ ((simulate_transit 2 10 1).1).getD (i : ℕ) 0 ∧
          ((simulate_transit 2 10 1).1).getD (i : ℕ) 0 ≤ 5) →
        ((simulate_transit 2 10 1).2).getD (i : ℕ) 0 = 1) := by
  refine ⟨⟨by norm_num, by norm_num⟩, ?_⟩
  intro i
  rw [brightness_getD 2 10 1 (i : ℕ) i.isLt]
  split_ifs with hw
  · norm_num at hw ⊢
    exact hw
  · norm_num at hw ⊢
    intro h1
    exact hw h1

/-- **C8** — For `planet_radius = 10` and any `orbital_period > 0`,
`star_brightness > 0`, the dip multiplier `1 - (10 / 10) ^ 2` is `0`, so
every brightness sample inside the transit window is exactly `0`. -/
theorem c8_full_occlusion (P B : ℚ) (hP : 0 < P) (hB : 0 < B) (i : ℕ)
    (hi : i < 100)
    (hw : P * 0.4 ≤ ((simulate_transit 10 P B).1).getD i 0 ∧
      ((simulate_transit 10 P B).1).getD i 0 ≤ P * 0.4 + P * 0.1) :
    (1 - ((10 : ℚ) / 10) ^ 2) = 0 ∧
    ((simulate_transit 10 P B).2).getD i 0 = 0 := by
  refine ⟨by norm_num, ?_⟩
  rw [brightness_getD 10 P B i hi, if_pos hw]
  norm_num

theorem c8_full_occlusion_witness :
    (0 : ℚ) < 10 ∧ (0 : ℚ) < 1 ∧ 45 < 100 ∧
    ((10 : ℚ) * 0.4 ≤ ((simulate_transit 10 10 1).1).getD 45 0 ∧
      ((simulate_transit 10 10 1).1).getD 45 0 ≤ 10 * 0.4 + 10 * 0.1) ∧
    ((1 - ((10 : ℚ) / 10) ^ 2) = 0 ∧
      ((simulate_transit 10 10 1).2).getD 45 0 = 0) := by
  have hw : (10 : ℚ) * 0.4 ≤ ((simulate_transit 10 10 1).1).getD 45 0 ∧
      ((simulate_transit 10 10 1).1).getD 45 0 ≤ 10 * 0.4 + 10 * 0.1 := by
    show (10 : ℚ) * 0.4 ≤ (linspace 0 10 100).getD 45 0 ∧
      (linspace 0 10 100).getD 45 0 ≤ 10 * 0.4 + 10 * 0.1
    rw [linspace_getD 0 10 100 45 0 (by norm_num)]
    norm_num
  exact ⟨by norm_num, by norm_num, by norm_num, hw,
    c8_full_occlusion 10 1 (by norm_num) (by norm_num) 45 (by norm_num) hw⟩

/-- **C10** (implicit) — For every `planet_radius ∈ [0, 10]`,
`orbital_period > 0`, `star_brightness > 0` and every sample index
`i < 100`, the brightness sample satisfies
`0 ≤ brightness ≤ star_brightness`. -/
theorem c10_brightness_bounds (r P B : ℚ) (hr0 : 0 ≤ r) (hr10 : r ≤ 10)
    (hP : 0 < P) (hB : 0 < B) (i : ℕ) (hi : i < 100) :
    0 ≤ ((simulate_transit r P B).2).getD i 0 ∧
    ((simulate_transit r P B).2).getD i 0 ≤ B := by
  rw [brightness_getD r P B i hi]
  split_ifs with hw
  · have h1 : (r / 10) ^ 2 ≤ 1 := by nlinarith
    have h2 : 0 ≤ (r / 10) ^ 2 := sq_nonneg _
    constructor
    · nlinarith
    · nlinarith
  · exact ⟨le_of_lt hB, le_refl B⟩

theorem c10_brightness_bounds_witness :
    (0 : ℚ) ≤ 2 ∧ (2 : ℚ) ≤ 10 ∧ (0 : ℚ) < 10 ∧ (0 : ℚ) < 1 ∧ 45 < 100 ∧
    (0 ≤ ((simulate_transit 2 10 1).2).getD 45 0 ∧
      ((simulate_transit 2 10 1).2).getD 45 0 ≤ 1) :=
  ⟨by norm_num, by norm_num, by norm_num, by norm_num, by norm_num,
    c10_brightness_bounds 2 10 1 (by norm_num) (by norm_num) (by norm_num)
      (by norm_num) 45 (by norm_num)⟩

/-- **C2** — For every `orbital_period > 0` (and any other parameters), the
time sequence returned by `simulate_transit` has exactly 100 samples, its
first sample is `0`, its last sample is `orbital_period`, and consecutive
samples are evenly spaced with step `orbital_period / 99`. -/
theorem c2_time_samples (r P B : ℚ) (hP : 0 < P) :
    ((simulate_transit r P B).1).length = 100 ∧
    ((simulate_transit r P B).1).getD 0 0 = 0 ∧
    ((simulate_transit r P B).1).getD 99 0 = P ∧
    ∀ i : ℕ, i < 99 →
      ((simulate_transit r P B).1).getD (i + 1) 0 -
        ((simulate_transit r P B).1).getD i 0 = P / 99 := by
  rw [simulate_transit_time]
  refine ⟨linspace_length 0 P 100, ?_, ?_, ?_⟩
  · rw [linspace_getD 0 P 100 0 0 (by norm_num)]
    norm_num
  · rw [linspace_getD 0 P 100 99 0 (by norm_num)]
    norm_num
  · intro i hi
    rw [linspace_getD 0 P 100 (i + 1) 0 (by omega),
      linspace_getD 0 P 100 i 0 (by omega)]
    push_cast
    ring

theorem c2_time_samples_witness :
    (0 : ℚ) < 10 ∧
    (((simulate_transit 2 10 1).1).length = 100 ∧
      ((simulate_transit 2 10 1).1).getD 0 0 = 0 ∧
      ((simulate_transit 2 10 1).1).getD 99 0 = 10 ∧
      ∀ i : ℕ, i < 99 →
        ((simulate_transit 2 10 1).1).getD (i + 1) 0 -
          ((simulate_transit 2 10 1).1).getD i 0 = 10 / 99) :=
  ⟨by norm_num, c2_time_samples 2 10 1 (by norm_num)⟩

theorem system_data_filter_branch (df : List Row) (sel : String)
    (hdf : df ≠ []) (hsel : sel ≠ "All") :
    system_data df sel = df.filter (rowMatches sel) := by
  simp [system_data, hdf, hsel]

/-- **C3** (counterexample) — with the non-empty catalog
`[{pl_name := "Kepler-452"}]` and the lower-case selector `"all"`, the
filter takes the substring branch (the code compares against the exact
string `"All"`), no row name contains `"all"`, and the result is the empty
table, not the full table. -/
theorem c3_counterexample :
    system_data [⟨some "Kepler-452", none, none, none, some "G"⟩] "all"
        = [] ∧
    ([] : List Row) ≠ [⟨some "Kepler-452", none, none, none, some "G"⟩] := by
  decide

/-- **C3** (amended) — when the catalog is non-empty and the selector has
the sentinel value `"All"` (the exact, capitalized string the selectbox
offers and the code compares against), the catalog filter returns the
full table unchanged — every row, in the same order. -/
theorem c3_all_sentinel (df : List Row) (hdf : df ≠ []) :
    system_data df "All" = df := by
  simp [system_data, hdf]

theorem c3_all_sentinel_witness :
    ([(⟨some "Kepler-452", none, none, none, some "G"⟩ : Row)] ≠ []) ∧
    system_data [⟨some "Kepler-452", none, none, none, some "G"⟩] "All"
      = [⟨some "Kepler-452", none, none, none, some "G"⟩] :=
  ⟨by simp, c3_all_sentinel
    [⟨some "Kepler-452", none, none, none, some "G"⟩] (by simp)⟩

/-- **C7** — for every non-empty catalog and every system-name substring
(anything other than the sentinel `"All"`), a row is in the filtered
table iff it is a catalog row whose present `pl_name` contains the
substring case-insensitively; rows with a missing name are excluded; and
when no row matches the result is the empty table. -/
theorem c7_substring_filter (df : List Row) (sel : String) (hdf : df ≠ [])
    (hsel : sel ≠ "All") :
    (∀ row : Row, row ∈ system_data df sel ↔
      row ∈ df ∧ ∃ n, row.pl_name = some n ∧ strContainsCI n sel = true) ∧
    (∀ row : Row, row.pl_name = none → row ∉ system_data df sel) ∧
    ((∀ row ∈ df, rowMatches sel row = false) →
      system_data df sel = []) := by
  rw [system_data_filter_branch df sel hdf hsel]
  refine ⟨?_, ?_, ?_⟩
  · intro row
    rw [List.mem_filter]
    constructor
    · rintro ⟨h1, h2⟩
      refine ⟨h1, ?_⟩
      cases hname : row.pl_name with
      | none => rw [rowMatches, hname] at h2; exact absurd h2 (by simp)
      | some n =>
        exact ⟨n, rfl, by rw [rowMatches, hname] at h2; exact h2⟩
    · rintro ⟨h1, n, hname, hc⟩
      exact ⟨h1, by rw [rowMatches, hname]; exact hc⟩
  · intro row hname hmem
    rw [List.mem_filter, rowMatches, hname] at hmem
    exact absurd hmem.2 (by simp)
  · intro hall
    rw [List.filter_eq_nil_iff]
    intro a ha
    simp [hall a ha]

theorem c7_substring_filter_witness :
    ([(⟨some "Kepler-452", none, none, none, some "G"⟩ : Row)] ≠ []) ∧
    ("kepler" : String) ≠ "All" ∧
    ((∀ row : Row,
        row ∈ system_data
          [⟨some "Kepler-452", none, none, none, some "G"⟩] "kepler" ↔
        row ∈ [(⟨some "Kepler-452", none, none, none, some "G"⟩ : Row)] ∧
          ∃ n, row.pl_name = some n ∧ strContainsCI n "kepler" = true) ∧
      (∀ row : Row, row.pl_name = none →
        row ∉ system_data
          [⟨some "Kepler-452", none, none, none, some "G"⟩] "kepler") ∧
      ((∀ row ∈ [(⟨some "Kepler-452", none, none, none, some "G"⟩ : Row)],
          rowMatches "kepler" row = false) →
        system_data
          [⟨some "Kepler-452", none, none, none, some "G"⟩] "kepler"
          = [])) :=
  ⟨by simp, by decide,
    c7_substring_filter
      [⟨some "Kepler-452", none, none, none, some "G"⟩] "kepler"
      (by simp) (by decide)⟩

theorem orbitAngle_getD (i : ℕ) (hi : i < 100) :
    orbitAngle.getD i 0 = 2 * Real.pi * (i : ℝ) / 99 := by
  rw [orbitAngle, linspace_getD 0 (2 * Real.pi) 100 i 0 hi]
  norm_num

theorem orbitAngle_length : orbitAngle.length = 100 := by
  rw [orbitAngle, linspace_length]

/-- **C6** — for every radius `r ≥ 0` the orbit projection produces
exactly 100 `x` samples and 100 `y` samples; the angle samples are the
100 evenly spaced values `2π·i/99` running from `0` to `2π`;
`x i = r·cos(angle i)` and `y i = r·sin(angle i)`; and for `r = 0` all
100 points coincide at the origin. -/
theorem c6_orbit_projection (r : ℚ) (hr : 0 ≤ r) :
    (orbitX r).length = 100 ∧ (orbitY r).length = 100 ∧
    (∀ i : ℕ, i < 100 →
      orbitAngle.getD i 0 = 2 * Real.pi * (i : ℝ) / 99) ∧
    orbitAngle.getD 0 0 = 0 ∧
    orbitAngle.getD 99 0 = 2 * Real.pi ∧
    (∀ i : ℕ, i < 100 →
      (orbitX r).getD i 0 = (r : ℝ) * Real.cos (orbitAngle.getD i 0) ∧
      (orbitY r).getD i 0 = (r : ℝ) * Real.sin (orbitAngle.getD i 0)) ∧
    (r = 0 → ∀ i : ℕ, i < 100 →
      (orbitX r).getD i 0 = 0 ∧ (orbitY r).getD i 0 = 0) := by
  have hx : ∀ i : ℕ, i < 100 →
      (orbitX r).getD i 0 = (r : ℝ) * Real.cos (orbitAngle.getD i 0) := by
    intro i hi
    rw [orbitX, getD_map_of_lt _ _ _ _ 0 (by rw [orbitAngle_length]; exact hi)]
  have hy : ∀ i : ℕ, i < 100 →
      (orbitY r).getD i 0 = (r : ℝ) * Real.sin (orbitAngle.getD i 0) := by
    intro i hi
    rw [orbitY, getD_map_of_lt _ _ _ _ 0 (by rw [orbitAngle_length]; exact hi)]
  refine ⟨by rw [orbitX, List.length_map, orbitAngle_length],
    by rw [orbitY, List.length_map, orbitAngle_length],
    orbitAngle_getD, ?_, ?_, fun i hi => ⟨hx i hi, hy i hi⟩, ?_⟩
  · rw [orbitAngle_getD 0 (by norm_num)]
    norm_num
  · rw [orbitAngle_getD 99 (by norm_num)]
    norm_num
  · intro h0 i hi
    subst h0
    rw [hx i hi, hy i hi]
    norm_num

theorem c6_orbit_projection_witness :
    (0 : ℚ) ≤ 0 ∧
    ((orbitX 0).length = 100 ∧ (orbitY 0).length = 100 ∧
      (∀ i : ℕ, i < 100 →
        orbitAngle.getD i 0 = 2 * Real.pi * (i : ℝ) / 99) ∧
      orbitAngle.getD 0 0 = 0 ∧
      orbitAngle.getD 99 0 = 2 * Real.pi ∧
      (∀ i : ℕ, i < 100 →
        (orbitX 0).getD i 0 = ((0 : ℚ) : ℝ) * Real.cos (orbitAngle.getD i 0) ∧
        (orbitY 0).getD i 0 = ((0 : ℚ) : ℝ) * Real.sin (orbitAngle.getD i 0)) ∧
      ((0 : ℚ) = 0 → ∀ i : ℕ, i < 100 →
        (orbitX 0).getD i 0 = 0 ∧ (orbitY 0).getD i 0 = 0)) :=
  ⟨le_refl 0, c6_orbit_projection 0 (le_refl 0)⟩

theorem length_flatMap_pair {α β : Type} (l : List α) (f g : α → β) :
    (l.flatMap (fun a => [f a, g a])).length = 2 * l.length := by
  induction l with
  | nil => rfl
  | cons a t ih =>
    rw [List.flatMap_cons, List.length_append, ih, List.length_cons]
    simp
    ring

/-- **C9** (counterexample) — with one filtered catalog row the orbit-map
figure holds three traces (star, orbit line, planet marker), not
`N + 1 = 2`. -/
theorem c9_counterexample :
    (fig_map [⟨some "Kepler-452", none, none, some 2, some "G"⟩]
        (1 / 10) 2).length = 3 ∧
    (3 : ℕ) ≠
      [(⟨some "Kepler-452", none, none, some 2, some "G"⟩ : Row)].length
        + 1 := by
  refine ⟨?_, by simp⟩
  rw [fig_map]
  simp

/-- **C9** (amended) — when catalog data is present and the filtered
system data has `N` rows, the orbit-map figure contains exactly
`2·N + 1` traces: the star, plus one orbit line and one marker per
planet. -/
theorem c9_trace_count (sd : List Row) (orad prad : ℚ) (hsd : sd ≠ []) :
    (fig_map sd orad prad).length = 2 * sd.length + 1 := by
  have h : sd.isEmpty = false := by simp [hsd]
  rw [fig_map, List.length_cons, h]
  simp only [Bool.false_eq_true, if_false]
  rw [length_flatMap_pair]

theorem c9_trace_count_witness :
    ([(⟨some "Kepler-452", none, none, some 2, some "G"⟩ : Row)] ≠ []) ∧
    (fig_map [⟨some "Kepler-452", none, none, some 2, some "G"⟩]
        (1 / 10) 2).length =
      2 * [(⟨some "Kepler-452", none, none, some 2, some "G"⟩ : Row)].length
        + 1 :=
  ⟨by simp, c9_trace_count
    [⟨some "Kepler-452", none, none, some 2, some "G"⟩] (1 / 10) 2
    (by simp)⟩

/-- **C5** (counterexample) — a present-but-unreadable catalog file
(`PermissionError`) is not replaced with an empty table: the handler
catches only `FileNotFoundError`, so the exception escapes. -/
theorem c5_counterexample :
    load_data (ReadResult.err PdError.permissionError)
        ≠ Except.ok ([] : List Row) ∧
    load_data (ReadResult.err PdError.permissionError)
        = Except.error PdError.permissionError := by
  constructor
  · simp [load_data]
  · rfl

/-- **C5** (amended) — when the catalog file is absent
(`FileNotFoundError`, the one exception the handler catches) the failure
is replaced with an empty table; every downstream computation treats the
empty catalog as valid input: the filter yields an empty table for any
selector, and the orbit map falls back to the UI-supplied orbital radius
and planet radius — its demo orbit line and demo marker are built from
those slider values instead of catalog values. -/
theorem c5_missing_file_fallback :
    load_data (ReadResult.err PdError.fileNotFound)
        = Except.ok ([] : List Row) ∧
    (∀ sel : String, system_data [] sel = []) ∧
    ∀ orbital_radius planet_radius : ℚ,
      fig_map [] orbital_radius planet_radius =
        [⟨[0], [0], Mode.markers, some 20, some "항성"⟩,
          ⟨orbitX orbital_radius, orbitY orbital_radius, Mode.lines, none,
            some "샘플 행성"⟩,
          ⟨[(orbital_radius : ℝ)], [(0 : ℝ)], Mode.markers,
            some ((planet_radius : ℝ) * 5), some "샘플 행성"⟩] :=
  ⟨rfl, fun _ => rfl, fun _ _ => rfl⟩
